import Mathlib

/-!
Shallow embedding of `location_api` (views.py) from the building-server
repository: the coordinate mapper (`MapMarker.latlon_to_pixel`), the arrow
renderer geometry (`MapMarker.draw_arrow`), the detection-box selector and
random fallback, the annotation compositor (`annotate_building`), the marker
extractor (`extract_between_markers`) and the request flow of
`identify_location`.

Python floats are idealised as rationals (`ℚ`) for the computable parts and
as reals (`ℝ`) for the trigonometric arrow geometry.  Python `int()` is
truncation toward zero.  Python exceptions that can escape the handler are
modelled with `Except PyErr`.
-/

/-- Python `int(x)` applied to a float/rational: truncation toward zero. -/
def truncQ (q : ℚ) : ℤ := if 0 ≤ q then ⌊q⌋ else ⌈q⌉

/-- Exceptions of the Python runtime that the embedded code can raise.
Only `json.JSONDecodeError` is caught in `identify_location`; every `PyErr`
below escapes the view (Django then produces an uncaught-exception 500). -/
inductive PyErr where
  | zeroDivisionError : PyErr
  | keyError : String → PyErr
  | typeError : String → PyErr
deriving DecidableEq

/-- The four geocoded corners handed to `MapMarker.__init__`
(each slot holds a `(latitude, longitude)` pair). -/
structure Corners where
  top_left : ℚ × ℚ
  top_right : ℚ × ℚ
  bottom_left : ℚ × ℚ
  bottom_right : ℚ × ℚ
deriving DecidableEq

/-- Python `min(a, b, c, d)` (left-nested binary min). -/
def min4 (a b c d : ℚ) : ℚ := min (min (min a b) c) d

/-- Python `max(a, b, c, d)` (left-nested binary max). -/
def max4 (a b c d : ℚ) : ℚ := max (max (max a b) c) d

/-- `lat_min = min(tl_lat, tr_lat, bl_lat, br_lat)` in `latlon_to_pixel`. -/
def latMinOf (c : Corners) : ℚ :=
  min4 c.top_left.1 c.top_right.1 c.bottom_left.1 c.bottom_right.1

/-- `lat_max = max(tl_lat, tr_lat, bl_lat, br_lat)` in `latlon_to_pixel`. -/
def latMaxOf (c : Corners) : ℚ :=
  max4 c.top_left.1 c.top_right.1 c.bottom_left.1 c.bottom_right.1

/-- `lon_min = min(tl_lon, tr_lon, bl_lon, br_lon)` in `latlon_to_pixel`. -/
def lonMinOf (c : Corners) : ℚ :=
  min4 c.top_left.2 c.top_right.2 c.bottom_left.2 c.bottom_right.2

/-- `lon_max = max(tl_lon, tr_lon, bl_lon, br_lon)` in `latlon_to_pixel`. -/
def lonMaxOf (c : Corners) : ℚ :=
  max4 c.top_left.2 c.top_right.2 c.bottom_left.2 c.bottom_right.2

/-- The multiset of the four corner coordinates, forgetting which slot
(`top_left`, ...) each pair was assigned to. -/
def cornersMS (c : Corners) : Multiset (ℚ × ℚ) :=
  {c.top_left, c.top_right, c.bottom_left, c.bottom_right}

/-- `MapMarker`: the map image's pixel size plus its four geocoded corners.
`__init__` performs no validation of the corners whatsoever. -/
structure MapMarker where
  width : ℕ
  height : ℕ
  corners : Corners

/-- The real-valued x of `latlon_to_pixel` before `int()` truncation:
`x = (lon - lon_min) / (lon_max - lon_min) * self.width`. -/
def pixelX (m : MapMarker) (lon : ℚ) : ℚ :=
  (lon - lonMinOf m.corners) / (lonMaxOf m.corners - lonMinOf m.corners) * m.width

/-- The real-valued y of `latlon_to_pixel` before `int()` truncation:
`y = (lat_max - lat) / (lat_max - lat_min) * self.height`. -/
def pixelY (m : MapMarker) (lat : ℚ) : ℚ :=
  (latMaxOf m.corners - lat) / (latMaxOf m.corners - latMinOf m.corners) * m.height

/-- `MapMarker.latlon_to_pixel`.  The x line divides by
`lon_max - lon_min` first, then the y line divides by `lat_max - lat_min`;
a zero denominator raises `ZeroDivisionError` at that point (no check or
clamp exists in the source). -/
def latlon_to_pixel (m : MapMarker) (lat lon : ℚ) : Except PyErr (ℤ × ℤ) :=
  if lonMaxOf m.corners - lonMinOf m.corners = 0 then
    Except.error PyErr.zeroDivisionError
  else if latMaxOf m.corners - latMinOf m.corners = 0 then
    Except.error PyErr.zeroDivisionError
  else
    Except.ok (truncQ (pixelX m lon), truncQ (pixelY m lat))

/-- `math.radians(d)`. -/
noncomputable def radiansOf (d : ℝ) : ℝ := d * (Real.pi / 180)

/-- `angle_rad = math.radians(direction - 90)` in `draw_arrow`. -/
noncomputable def arrowAngle (direction : ℝ) : ℝ := radiansOf (direction - 90)

/-- The arrowhead tip of `draw_arrow`:
`(x + size*0.3*cos(angle_rad), y + size*0.3*sin(angle_rad))`. -/
noncomputable def arrowTip (x y direction size : ℝ) : ℝ × ℝ :=
  (x + size * 0.3 * Real.cos (arrowAngle direction),
   y + size * 0.3 * Real.sin (arrowAngle direction))

/-- The left wing of the arrowhead: offset `size*0.5` along `angle_rad + 150°`. -/
noncomputable def arrowLeftWing (x y direction size : ℝ) : ℝ × ℝ :=
  (x + size * 0.5 * Real.cos (arrowAngle direction + radiansOf 150),
   y + size * 0.5 * Real.sin (arrowAngle direction + radiansOf 150))

/-- The right wing of the arrowhead: offset `size*0.5` along `angle_rad - 150°`. -/
noncomputable def arrowRightWing (x y direction size : ℝ) : ℝ × ℝ :=
  (x + size * 0.5 * Real.cos (arrowAngle direction - radiansOf 150),
   y + size * 0.5 * Real.sin (arrowAngle direction - radiansOf 150))

/-- The shaft end of `draw_arrow`: the anchor moved backward along the
angle for `shaft_length = size * 2`. -/
noncomputable def arrowShaftEnd (x y direction size : ℝ) : ℝ × ℝ :=
  (x - size * 2 * Real.cos (arrowAngle direction),
   y - size * 2 * Real.sin (arrowAngle direction))

/-- One raw detector box `box.xyxy[0]` (floating coordinates). -/
structure RawBox where
  x1 : ℚ
  y1 : ℚ
  x2 : ℚ
  y2 : ℚ
deriving DecidableEq

/-- `area = (x2 - x1) * (y2 - y1)` in the selection loop. -/
def boxArea (b : RawBox) : ℚ := (b.x2 - b.x1) * (b.y2 - b.y1)

/-- `best_box = [int(x1), int(y1), int(x2), int(y2)]`: integer pixel box. -/
structure PixBox where
  x1 : ℤ
  y1 : ℤ
  x2 : ℤ
  y2 : ℤ
deriving DecidableEq

/-- Truncation of a raw box to the integer box stored in `best_box`. -/
def truncBox (b : RawBox) : PixBox :=
  ⟨truncQ b.x1, truncQ b.y1, truncQ b.x2, truncQ b.y2⟩

/-- One iteration of the selection loop: state is `(max_area, best_box)`,
updated when `area > max_area` (strict, so ties keep the earlier box). -/
def selectStep (s : ℚ × Option PixBox) (b : RawBox) : ℚ × Option PixBox :=
  if s.1 < boxArea b then (boxArea b, some (truncBox b)) else s

/-- The selection loop of `annotate_building` over the thresholded candidate
list (the YOLO call already filtered by `conf=0.2`), starting from
`max_area = 0`, `best_box = None`. -/
def select_box (bs : List RawBox) : Option PixBox :=
  (bs.foldl selectStep (0, none)).2

/-- Reference function: the first box of maximal area, seeded with champion
`c` (replacement only on strictly larger area, mirroring the loop). -/
def firstMaxAux (c : RawBox) : List RawBox → RawBox
  | [] => c
  | b :: bs => firstMaxAux (if boxArea c < boxArea b then b else c) bs

/-- The fallback of `annotate_building` when `best_box is None`:
`[int(w*v1), int(h*v1), int(w*v2), int(h*v2)]` with `v1, v2` drawn from the
process-wide `random_value_generator` (`v1 ~ uniform(0, 0.2)`,
`v2 ~ uniform(0.8, 1)`). -/
def fallback_box (w h : ℕ) (v1 v2 : ℚ) : PixBox :=
  ⟨truncQ (w * v1), truncQ (h * v1), truncQ (w * v2), truncQ (h * v2)⟩

/-- Whether `p` is an initial segment of `s` (character-exact). -/
def leadsWith : List Char → List Char → Bool
  | [], _ => true
  | _ :: _, [] => false
  | p :: ps, c :: cs => p == c && leadsWith ps cs

/-- From the current position, the shortest run of characters before the
closing tag of the regex, if the closing tag occurs at all
(the lazy `(.*?)` of the pattern). -/
def takeUntilClose (close : List Char) : List Char → Option (List Char)
  | [] => none
  | c :: cs =>
    if leadsWith close (c :: cs) then some []
    else (takeUntilClose close cs).map (fun t => c :: t)

/-- Leftmost match of the pattern: find the earliest opening tag that is
followed by a closing tag, and return the (lazy, shortest) content between
them; otherwise `None`.  Mirrors `re.search` with a lazy group. -/
def extractFrom (openT closeT : List Char) : List Char → Option (List Char)
  | [] => none
  | c :: cs =>
    if leadsWith openT (c :: cs) then
      match takeUntilClose closeT (List.drop openT.length (c :: cs)) with
      | some content => some content
      | none => extractFrom openT closeT cs
    else extractFrom openT closeT cs

/-- Python `str.strip()`: drop whitespace from both ends. -/
def stripWS (cs : List Char) : List Char :=
  ((cs.dropWhile Char.isWhitespace).reverse.dropWhile Char.isWhitespace).reverse

/-- `extract_between_markers(text)`: the content between the first
well-formed pair of markers, `.strip()`-ped of surrounding whitespace, or
`None` when the pattern does not match. -/
def extract_between_markers (text : String) : Option String :=
  (extractFrom "/***".data "***/".data text.data).map
    (fun cs => String.mk (stripWS cs))

/-- A raster image: pixel size plus a colour at each coordinate pair
(coordinates outside the size are junk, as in an unchecked buffer model). -/
structure Img where
  width : ℕ
  height : ℕ
  pix : ℕ → ℕ → ℕ

/-- Transpose of an image (reflection along the main diagonal). -/
def transposeImg (img : Img) : Img :=
  ⟨img.height, img.width, fun x y => img.pix y x⟩

/-- Horizontal mirror of an image (left-right flip). -/
def flipH (img : Img) : Img :=
  ⟨img.width, img.height, fun x y => img.pix (img.width - 1 - x) y⟩

/-- PIL `img.rotate(-90, expand=True)`: quarter turn clockwise with the
canvas expanded, so width and height swap and the original pixel `(x, y)`
lands at `(height - 1 - y, x)`. -/
def rotateCW (img : Img) : Img :=
  ⟨img.height, img.width, fun x y => img.pix y (img.height - 1 - x)⟩

/-- Colour code used for `'red'` fills and outlines. -/
def redC : ℕ := 0xFF0000

/-- Colour code used for the `'white'` label text. -/
def whiteC : ℕ := 0xFFFFFF

/-- Model of `draw.rectangle(box, outline=c, width=w)`: paint the border
band of the box. -/
def rectOutline (img : Img) (b : PixBox) (c : ℕ) (w : ℤ) : Img :=
  { img with pix := fun px py =>
      if (b.x1 ≤ (px : ℤ) ∧ (px : ℤ) ≤ b.x2 ∧ b.y1 ≤ (py : ℤ) ∧ (py : ℤ) ≤ b.y2) ∧
         ¬(b.x1 + w ≤ (px : ℤ) ∧ (px : ℤ) ≤ b.x2 - w ∧
           b.y1 + w ≤ (py : ℤ) ∧ (py : ℤ) ≤ b.y2 - w)
      then c else img.pix px py }

/-- Model of `draw.rectangle([x1, y1, x2, y2], fill=c)`. -/
def fillRect (img : Img) (x1 y1 x2 y2 : ℤ) (c : ℕ) : Img :=
  { img with pix := fun px py =>
      if x1 ≤ (px : ℤ) ∧ (px : ℤ) ≤ x2 ∧ y1 ≤ (py : ℤ) ∧ (py : ℤ) ≤ y2
      then c else img.pix px py }

/-- Modelled glyph width of one character at the fixed 120pt font
(PIL font metrics are external; only positivity matters to the code). -/
def glyphW : ℤ := 66

/-- `text_w` from `draw.textbbox((0, 0), label, font)`. -/
def textW (s : String) : ℤ := glyphW * s.length

/-- `text_h` from `draw.textbbox((0, 0), label, font)`. -/
def textH (_s : String) : ℤ := 120

/-- Model of `draw.text((x, y), s, fill=...)`: stamp character codes of `s`
over the text box. -/
def drawText (img : Img) (x y : ℤ) (s : String) : Img :=
  { img with pix := fun px py =>
      if x ≤ (px : ℤ) ∧ (px : ℤ) < x + textW s ∧ y ≤ (py : ℤ) ∧ (py : ℤ) < y + textH s
      then (s.data.getD (((px : ℤ) - x).toNat / glyphW.toNat) ' ').toNat
      else img.pix px py }

/-- The box `annotate_building` annotates: the loop's best box, or the
random central fallback when the loop selected nothing. -/
def chooseBox (img : Img) (dets : List RawBox) (v1 v2 : ℚ) : PixBox :=
  match select_box dets with
  | some b => b
  | none => fallback_box img.width img.height v1 v2

/-- The drawing part of `annotate_building` once a real (non-`None`) label
is in hand: red border, label background above the box (or below when the
callout would leave the top), white label text. -/
def composeOverlay (img : Img) (bb : PixBox) (lbl : String) : Img :=
  let img1 := rectOutline img bb redC 4
  let tw := textW lbl
  let th := textH lbl
  let bgY1 := if bb.y1 - th - 20 > 0 then bb.y1 - th - 20 else bb.y2
  let img2 := fillRect img1 bb.x1 bgY1 (bb.x1 + tw + 20) (bgY1 + th + 20) redC
  drawText img2 (bb.x1 + 10) (bgY1 + 10) lbl

/-- `annotate_building(image_path, label, output_path)`.  The detector's
thresholded candidates and the two generator draws are passed explicitly.
When `label` is `None` the call `draw.textbbox((0, 0), label, font=font)`
raises `TypeError` (there is no placeholder substitution anywhere in the
source), so the whole function raises instead of returning an image. -/
def annotate_building (img : Img) (label : Option String) (dets : List RawBox)
    (v1 v2 : ℚ) : Except PyErr Img :=
  let bb := chooseBox img dets v1 v2
  match label with
  | none => Except.error (PyErr.typeError "text must be a string or bytes")
  | some lbl => Except.ok (composeOverlay img bb lbl)

/-- The `gps` JSON object of the request (each key may be absent). -/
structure GpsData where
  latitude : Option ℚ
  longitude : Option ℚ
deriving DecidableEq

/-- The parsed JSON body of `POST /identify/`.  A field set to `none` is a
key missing from the JSON object.  The base64 payload is modelled by the
image it decodes to. -/
structure ReqData where
  direction : Option ℚ
  gps : Option GpsData
  image_base64 : Option Img

/-- Outcome of `query_gemini_location`: on success a dict holding the free
text under `'location'`; on failure a dict holding only `'error'` (and no
`'location'` key at all). -/
inductive GeminiResult where
  | ok : String → GeminiResult
  | err : String → GeminiResult

/-- The JSON responses `identify_location` can return (echo fields
and the model identifier omitted; they carry no logic). -/
inductive HttpResponse where
  | resp400 : String → HttpResponse
  | resp200 : Option String → Img → HttpResponse
  | resp500 : String → HttpResponse

/-- The corner dict hard-coded inside `identify_location`. -/
def hardcodedCorners : Corners :=
  ⟨(32.99563626626291, -96.75615546459603),
   (32.99562635860259, -96.74429935194813),
   (32.9828203491122, -96.75615546459603),
   (32.9828203491122, -96.74429935194813)⟩

/-- `identify_location` after `json.loads` succeeded (the only exception the
source catches is `json.JSONDecodeError`, so every `PyErr` raised below
escapes the view).  Control flow mirrors the source line by line:
the direction/gps presence check returns 400; `data['image_base64']` can
raise `KeyError`; `draw_arrow(lat=gps['latitude'], lon=gps['longitude'], ...)`
reads both gps keys and maps them through `latlon_to_pixel` *before* the
explicit gps validation; the model answer is read from `result['location']`
before `result['success']` is ever tested; the photo is rotated a quarter
turn clockwise and then annotated.  `mapW`/`mapH` are the pixel size of the
reference map `map_png.png`; `dets`, `v1`, `v2` feed `annotate_building`.
The corner dict is a literal inside the view body in the source; it is
factored into the `corners` parameter so that `identify_location` below is
exactly this function applied to `hardcodedCorners`. -/
def identify_location_core (corners : Corners) (mapW mapH : ℕ) (req : ReqData)
    (gemini : GeminiResult) (dets : List RawBox) (v1 v2 : ℚ) :
    Except PyErr HttpResponse :=
  match req.direction, req.gps with
  | none, _ => Except.ok (HttpResponse.resp400 "Missing required fields: direction and gps")
  | some _, none => Except.ok (HttpResponse.resp400 "Missing required fields: direction and gps")
  | some _dir, some gps =>
    match req.image_base64 with
    | none => Except.error (PyErr.keyError "image_base64")
    | some photo =>
      match gps.latitude with
      | none => Except.error (PyErr.keyError "latitude")
      | some lat =>
        match gps.longitude with
        | none => Except.error (PyErr.keyError "longitude")
        | some lon =>
          match latlon_to_pixel ⟨mapW, mapH, corners⟩ lat lon with
          | Except.error e => Except.error e
          | Except.ok _anchor =>
            if gps.latitude = none ∨ gps.longitude = none then
              Except.ok (HttpResponse.resp400 "GPS must contain latitude and longitude")
            else
              match gemini with
              | GeminiResult.err _ => Except.error (PyErr.keyError "location")
              | GeminiResult.ok answer =>
                match annotate_building (rotateCW photo)
                    (extract_between_markers answer) dets v1 v2 with
                | Except.error e => Except.error e
                | Except.ok labeled =>
                  Except.ok (HttpResponse.resp200 (extract_between_markers answer) labeled)

/-- The view itself: `identify_location_core` at the corner dict that the
source writes literally inside the function body. -/
def identify_location (mapW mapH : ℕ) (req : ReqData) (gemini : GeminiResult)
    (dets : List RawBox) (v1 v2 : ℚ) : Except PyErr HttpResponse :=
  identify_location_core hardcodedCorners mapW mapH req gemini dets v1 v2

/-! ### Helper lemmas -/

theorem truncQ_of_nonneg {q : ℚ} (h : 0 ≤ q) : truncQ q = ⌊q⌋ := if_pos h

theorem truncQ_mono {a b : ℚ} (h : a ≤ b) : truncQ a ≤ truncQ b := by
  unfold truncQ
  split_ifs with ha hb hb
  · exact Int.floor_le_floor h
  · exact absurd (ha.trans h) hb
  · refine le_trans (Int.ceil_le.2 ?_) (Int.floor_nonneg.2 hb)
    exact_mod_cast le_of_not_le ha
  · exact Int.ceil_le_ceil h

theorem latlon_to_pixel_ok (m : MapMarker)
    (hlon : lonMinOf m.corners < lonMaxOf m.corners)
    (hlat : latMinOf m.corners < latMaxOf m.corners) (lat lon : ℚ) :
    latlon_to_pixel m lat lon =
      Except.ok (truncQ (pixelX m lon), truncQ (pixelY m lat)) := by
  unfold latlon_to_pixel
  rw [if_neg (sub_ne_zero_of_ne (ne_of_gt hlon)),
    if_neg (sub_ne_zero_of_ne (ne_of_gt hlat))]

theorem min4_eq_or (a b c d : ℚ) :
    min4 a b c d = a ∨ min4 a b c d = b ∨ min4 a b c d = c ∨ min4 a b c d = d := by
  unfold min4
  rcases min_choice (min (min a b) c) d with h | h
  · rw [h]
    rcases min_choice (min a b) c with h1 | h1
    · rw [h1]
      rcases min_choice a b with h2 | h2
      · exact Or.inl h2
      · exact Or.inr (Or.inl h2)
    · exact Or.inr (Or.inr (Or.inl h1))
  · exact Or.inr (Or.inr (Or.inr h))

theorem max4_eq_or (a b c d : ℚ) :
    max4 a b c d = a ∨ max4 a b c d = b ∨ max4 a b c d = c ∨ max4 a b c d = d := by
  unfold max4
  rcases max_choice (max (max a b) c) d with h | h
  · rw [h]
    rcases max_choice (max a b) c with h1 | h1
    · rw [h1]
      rcases max_choice a b with h2 | h2
      · exact Or.inl h2
      · exact Or.inr (Or.inl h2)
    · exact Or.inr (Or.inr (Or.inl h1))
  · exact Or.inr (Or.inr (Or.inr h))

theorem min4_le (a b c d x : ℚ) (hx : x ∈ ({a, b, c, d} : Multiset ℚ)) :
    min4 a b c d ≤ x := by
  have ha : min4 a b c d ≤ a :=
    le_trans (min_le_left _ _) (le_trans (min_le_left _ _) (min_le_left _ _))
  have hb : min4 a b c d ≤ b :=
    le_trans (min_le_left _ _) (le_trans (min_le_left _ _) (min_le_right _ _))
  have hc : min4 a b c d ≤ c := le_trans (min_le_left _ _) (min_le_right _ _)
  have hd : min4 a b c d ≤ d := min_le_right _ _
  simp only [Multiset.insert_eq_cons, Multiset.mem_cons, Multiset.mem_singleton] at hx
  rcases hx with rfl | rfl | rfl | rfl
  · exact ha
  · exact hb
  · exact hc
  · exact hd

theorem le_max4 (a b c d x : ℚ) (hx : x ∈ ({a, b, c, d} : Multiset ℚ)) :
    x ≤ max4 a b c d := by
  have ha : a ≤ max4 a b c d :=
    le_trans (le_trans (le_max_left _ _) (le_max_left _ _)) (le_max_left _ _)
  have hb : b ≤ max4 a b c d :=
    le_trans (le_trans (le_max_right _ _) (le_max_left _ _)) (le_max_left _ _)
  have hc : c ≤ max4 a b c d := le_trans (le_max_right _ _) (le_max_left _ _)
  have hd : d ≤ max4 a b c d := le_max_right _ _
  simp only [Multiset.insert_eq_cons, Multiset.mem_cons, Multiset.mem_singleton] at hx
  rcases hx with rfl | rfl | rfl | rfl
  · exact ha
  · exact hb
  · exact hc
  · exact hd

theorem min4_mem (a b c d : ℚ) : min4 a b c d ∈ ({a, b, c, d} : Multiset ℚ) := by
  simp only [Multiset.insert_eq_cons, Multiset.mem_cons, Multiset.mem_singleton]
  exact min4_eq_or a b c d

theorem max4_mem (a b c d : ℚ) : max4 a b c d ∈ ({a, b, c, d} : Multiset ℚ) := by
  simp only [Multiset.insert_eq_cons, Multiset.mem_cons, Multiset.mem_singleton]
  exact max4_eq_or a b c d

theorem min4_congr {a b c d a1 b1 c1 d1 : ℚ}
    (h : ({a, b, c, d} : Multiset ℚ) = {a1, b1, c1, d1}) :
    min4 a b c d = min4 a1 b1 c1 d1 := by
  apply le_antisymm
  · exact min4_le a b c d _ (h ▸ min4_mem a1 b1 c1 d1)
  · exact min4_le a1 b1 c1 d1 _ (h.symm ▸ min4_mem a b c d)

theorem max4_congr {a b c d a1 b1 c1 d1 : ℚ}
    (h : ({a, b, c, d} : Multiset ℚ) = {a1, b1, c1, d1}) :
    max4 a b c d = max4 a1 b1 c1 d1 := by
  apply le_antisymm
  · exact le_max4 a1 b1 c1 d1 _ (h ▸ max4_mem a b c d)
  · exact le_max4 a b c d _ (h.symm ▸ max4_mem a1 b1 c1 d1)

theorem cornersMS_map_fst (c c1 : Corners) (h : cornersMS c = cornersMS c1) :
    ({c.top_left.1, c.top_right.1, c.bottom_left.1, c.bottom_right.1} : Multiset ℚ) =
      {c1.top_left.1, c1.top_right.1, c1.bottom_left.1, c1.bottom_right.1} := by
  have := congrArg (Multiset.map Prod.fst) h
  simpa [cornersMS] using this

theorem cornersMS_map_snd (c c1 : Corners) (h : cornersMS c = cornersMS c1) :
    ({c.top_left.2, c.top_right.2, c.bottom_left.2, c.bottom_right.2} : Multiset ℚ) =
      {c1.top_left.2, c1.top_right.2, c1.bottom_left.2, c1.bottom_right.2} := by
  have := congrArg (Multiset.map Prod.snd) h
  simpa [cornersMS] using this

theorem bounds_relabel_invariant (c c1 : Corners) (h : cornersMS c1 = cornersMS c) :
    latMinOf c1 = latMinOf c ∧ latMaxOf c1 = latMaxOf c ∧
    lonMinOf c1 = lonMinOf c ∧ lonMaxOf c1 = lonMaxOf c := by
  refine ⟨min4_congr (cornersMS_map_fst c1 c h), max4_congr (cornersMS_map_fst c1 c h),
    min4_congr (cornersMS_map_snd c1 c h), max4_congr (cornersMS_map_snd c1 c h)⟩

theorem firstMaxAux_cases (c : RawBox) (bs : List RawBox) :
    (firstMaxAux c bs = c ∧ ∀ x ∈ bs, boxArea x ≤ boxArea c) ∨
    (∃ pre b suf, bs = pre ++ b :: suf ∧ firstMaxAux c bs = b ∧
      boxArea c < boxArea b ∧ (∀ x ∈ bs, boxArea x ≤ boxArea b) ∧
      ∀ x ∈ pre, boxArea x < boxArea b) := by
  induction bs generalizing c with
  | nil => exact Or.inl ⟨rfl, by intro x hx; cases hx⟩
  | cons b bs ih =>
    have hstep : firstMaxAux c (b :: bs) =
        firstMaxAux (if boxArea c < boxArea b then b else c) bs := rfl
    by_cases h : boxArea c < boxArea b
    · rw [hstep, if_pos h]
      rcases ih b with ⟨heq, hall⟩ | ⟨pre, d, suf, hsplit, heq, hlt, hall, hpre⟩
      · refine Or.inr ⟨[], b, bs, rfl, heq, h, ?_, by intro x hx; cases hx⟩
        intro x hx
        rcases List.mem_cons.1 hx with rfl | hx
        · exact le_refl _
        · exact hall x hx
      · refine Or.inr ⟨b :: pre, d, suf, by rw [hsplit, List.cons_append], heq, lt_trans h hlt, ?_, ?_⟩
        · intro x hx
          rcases List.mem_cons.1 hx with rfl | hx
          · exact le_of_lt hlt
          · exact hall x hx
        · intro x hx
          rcases List.mem_cons.1 hx with rfl | hx
          · exact hlt
          · exact hpre x hx
    · rw [hstep, if_neg h]
      rcases ih c with ⟨heq, hall⟩ | ⟨pre, d, suf, hsplit, heq, hlt, hall, hpre⟩
      · refine Or.inl ⟨heq, ?_⟩
        intro x hx
        rcases List.mem_cons.1 hx with rfl | hx
        · exact le_of_not_lt h
        · exact hall x hx
      · refine Or.inr ⟨b :: pre, d, suf, by rw [hsplit, List.cons_append], heq, hlt, ?_, ?_⟩
        · intro x hx
          rcases List.mem_cons.1 hx with rfl | hx
          · exact le_trans (le_of_not_lt h) (le_of_lt hlt)
          · exact hall x hx
        · intro x hx
          rcases List.mem_cons.1 hx with rfl | hx
          · exact lt_of_le_of_lt (le_of_not_lt h) hlt
          · exact hpre x hx

theorem foldl_selectStep_eq (c : RawBox) (bs : List RawBox) :
    List.foldl selectStep (boxArea c, some (truncBox c)) bs =
      (boxArea (firstMaxAux c bs), some (truncBox (firstMaxAux c bs))) := by
  induction bs generalizing c with
  | nil => rfl
  | cons b bs ih =>
    rw [List.foldl_cons]
    by_cases h : boxArea c < boxArea b
    · have h1 : selectStep (boxArea c, some (truncBox c)) b =
          (boxArea b, some (truncBox b)) := by
        unfold selectStep
        rw [if_pos h]
      have h2 : firstMaxAux c (b :: bs) = firstMaxAux b bs := by
        show firstMaxAux (if boxArea c < boxArea b then b else c) bs = _
        rw [if_pos h]
      rw [h1, h2]
      exact ih b
    · have h1 : selectStep (boxArea c, some (truncBox c)) b =
          (boxArea c, some (truncBox c)) := by
        unfold selectStep
        rw [if_neg h]
      have h2 : firstMaxAux c (b :: bs) = firstMaxAux c bs := by
        show firstMaxAux (if boxArea c < boxArea b then b else c) bs = _
        rw [if_neg h]
      rw [h1, h2]
      exact ih c

theorem select_box_cons_pos (b : RawBox) (bs : List RawBox) (hb : 0 < boxArea b) :
    select_box (b :: bs) = some (truncBox (firstMaxAux b bs)) := by
  unfold select_box
  rw [List.foldl_cons]
  have h1 : selectStep (0, none) b = (boxArea b, some (truncBox b)) := by
    unfold selectStep
    rw [if_pos hb]
  rw [h1, foldl_selectStep_eq]

theorem truncQ_natCast (n : ℕ) : truncQ (n : ℚ) = n := by
  unfold truncQ
  rw [if_pos (by positivity)]
  exact Int.floor_natCast n

theorem truncQ_zero : truncQ 0 = 0 := by
  unfold truncQ
  rw [if_pos le_rfl]
  exact Int.floor_zero

theorem hardcoded_lon_span : lonMinOf hardcodedCorners < lonMaxOf hardcodedCorners := by
  norm_num [lonMinOf, lonMaxOf, min4, max4, min_def, max_def, hardcodedCorners]

theorem hardcoded_lat_span : latMinOf hardcodedCorners < latMaxOf hardcodedCorners := by
  norm_num [latMinOf, latMaxOf, min4, max4, min_def, max_def, hardcodedCorners]

theorem hard_latlon_ok (mapW mapH : ℕ) (lat lon : ℚ) :
    latlon_to_pixel ⟨mapW, mapH, hardcodedCorners⟩ lat lon =
      Except.ok (truncQ (pixelX ⟨mapW, mapH, hardcodedCorners⟩ lon),
                 truncQ (pixelY ⟨mapW, mapH, hardcodedCorners⟩ lat)) :=
  latlon_to_pixel_ok ⟨mapW, mapH, hardcodedCorners⟩ hardcoded_lon_span
    hardcoded_lat_span lat lon

theorem annotate_building_none (img : Img) (dets : List RawBox) (v1 v2 : ℚ) :
    annotate_building img none dets v1 v2 =
      Except.error (PyErr.typeError "text must be a string or bytes") := rfl

theorem annotate_building_some (img : Img) (lbl : String) (dets : List RawBox)
    (v1 v2 : ℚ) :
    annotate_building img (some lbl) dets v1 v2 =
      Except.ok (composeOverlay img (chooseBox img dets v1 v2) lbl) := rfl

theorem identify_location_core_full (c : Corners)
    (hlon : lonMinOf c < lonMaxOf c) (hlat : latMinOf c < latMaxOf c)
    (mapW mapH : ℕ) (d lat lon : ℚ) (img : Img) (answer : String)
    (dets : List RawBox) (v1 v2 : ℚ) :
    identify_location_core c mapW mapH ⟨some d, some ⟨some lat, some lon⟩, some img⟩
      (GeminiResult.ok answer) dets v1 v2 =
      match annotate_building (rotateCW img) (extract_between_markers answer)
          dets v1 v2 with
      | Except.error e => Except.error e
      | Except.ok labeled =>
        Except.ok (HttpResponse.resp200 (extract_between_markers answer) labeled) := by
  simp only [identify_location_core,
    latlon_to_pixel_ok ⟨mapW, mapH, c⟩ hlon hlat lat lon]
  rw [if_neg (by simp)]

theorem identify_location_full (mapW mapH : ℕ) (d lat lon : ℚ) (img : Img)
    (answer : String) (dets : List RawBox) (v1 v2 : ℚ) :
    identify_location mapW mapH ⟨some d, some ⟨some lat, some lon⟩, some img⟩
      (GeminiResult.ok answer) dets v1 v2 =
      match annotate_building (rotateCW img) (extract_between_markers answer)
          dets v1 v2 with
      | Except.error e => Except.error e
      | Except.ok labeled =>
        Except.ok (HttpResponse.resp200 (extract_between_markers answer) labeled) :=
  identify_location_core_full hardcodedCorners hardcoded_lon_span hardcoded_lat_span
    mapW mapH d lat lon img answer dets v1 v2

/-! ### Test fixtures (concrete inputs for witnesses and counterexamples) -/

def imgTest : Img := ⟨4, 4, fun _ _ => 0⟩

def imgTall : Img := ⟨1, 2, fun _ _ => 0⟩

def cornersA : Corners := ⟨(1, 0), (1, 1), (0, 0), (0, 1)⟩

def markerA : MapMarker := ⟨100, 100, cornersA⟩

def exampleBoxes : List RawBox := [⟨0, 0, 10, 10⟩, ⟨0, 0, 50, 50⟩, ⟨5, 5, 20, 20⟩]

theorem truncQ_eval (q : ℚ) (n : ℤ) (h0 : 0 ≤ q) (h1 : (n : ℚ) ≤ q)
    (h2 : q < n + 1) : truncQ q = n := by
  rw [truncQ_of_nonneg h0, Int.floor_eq_iff]
  exact ⟨h1, by exact_mod_cast h2⟩

theorem annotate_building_error_shape (img : Img) (label : Option String)
    (dets : List RawBox) (v1 v2 : ℚ) (e : PyErr)
    (h : annotate_building img label dets v1 v2 = Except.error e) :
    e = PyErr.typeError "text must be a string or bytes" := by
  rcases label with _ | lbl
  · rw [annotate_building_none] at h
    exact (Except.error.inj h).symm
  · rw [annotate_building_some] at h
    cases h

theorem identify_core_no_zero_div (c : Corners)
    (hlon : lonMinOf c < lonMaxOf c) (hlat : latMinOf c < latMaxOf c)
    (mapW mapH : ℕ) (req : ReqData) (gemini : GeminiResult) (dets : List RawBox)
    (v1 v2 : ℚ) :
    identify_location_core c mapW mapH req gemini dets v1 v2 ≠
      Except.error PyErr.zeroDivisionError := by
  rcases req with ⟨dir, gps, photo⟩
  rcases dir with _ | d
  · simp [identify_location_core]
  rcases gps with _ | gps
  · simp [identify_location_core]
  rcases photo with _ | photo
  · simp [identify_location_core]
  rcases gps with ⟨glat, glon⟩
  rcases glat with _ | glat
  · simp [identify_location_core]
  rcases glon with _ | glon
  · simp [identify_location_core]
  rcases gemini with answer | msg
  · rw [identify_location_core_full c hlon hlat]
    rcases hA : annotate_building (rotateCW photo) (extract_between_markers answer)
        dets v1 v2 with e | out
    · rw [annotate_building_error_shape _ _ _ _ _ _ hA]
      simp
    · simp
  · simp [identify_location_core, latlon_to_pixel_ok ⟨mapW, mapH, c⟩ hlon hlat]

/-- Claim C1: when the model answer carries no `/*** ... ***/` markers,
`extract_between_markers` returns `None`; `annotate_building` then receives
`label = None` and, far from substituting an "unknown" placeholder, raises
`TypeError` inside `draw.textbbox`, so the whole request dies with an
uncaught exception instead of returning an encoded image. -/
theorem compositor_unparseable_label_raises :
    extract_between_markers "I could not find any building." = none ∧
    annotate_building imgTest none [] (1/10) (9/10) =
      Except.error (PyErr.typeError "text must be a string or bytes") ∧
    identify_location 200 100 ⟨some 0, some ⟨some 33, some (-96)⟩, some imgTest⟩
      (GeminiResult.ok "I could not find any building.") [] (1/10) (9/10) =
      Except.error (PyErr.typeError "text must be a string or bytes") := by
  refine ⟨rfl, rfl, ?_⟩
  rw [identify_location_full,
    show extract_between_markers "I could not find any building." = none from rfl,
    annotate_building_none]

/-- Claim C6: the endpoint returns a 400 JSON error only for a missing `direction`
or `gps` member.  A request lacking `image_base64`, or whose `gps` object
lacks `latitude` or `longitude`, raises `KeyError` before any validation
(only `json.JSONDecodeError` is caught), so those requests end in an
uncaught exception, not a 400. -/
theorem endpoint_missing_fields_uncaught :
    identify_location 200 100 ⟨some 0, some ⟨some 33, some (-96)⟩, none⟩
      (GeminiResult.ok "/*** A ***/") [] (1/10) (9/10) =
      Except.error (PyErr.keyError "image_base64") ∧
    identify_location 200 100 ⟨some 0, some ⟨none, some (-96)⟩, some imgTest⟩
      (GeminiResult.ok "/*** A ***/") [] (1/10) (9/10) =
      Except.error (PyErr.keyError "latitude") ∧
    identify_location 200 100 ⟨some 0, some ⟨some 33, none⟩, some imgTest⟩
      (GeminiResult.ok "/*** A ***/") [] (1/10) (9/10) =
      Except.error (PyErr.keyError "longitude") ∧
    identify_location 200 100 ⟨none, some ⟨some 33, some (-96)⟩, some imgTest⟩
      (GeminiResult.ok "/*** A ***/") [] (1/10) (9/10) =
      Except.ok (HttpResponse.resp400 "Missing required fields: direction and gps") :=
  ⟨rfl, rfl, rfl, rfl⟩

def degenerateCorners : Corners := ⟨(1, 1), (1, 1), (1, 1), (1, 1)⟩

/-- Claim C9 counterexample: no load-time validation of the corner configuration
exists anywhere; constructing a `MapMarker` over a degenerate frame succeeds
silently, and the `ZeroDivisionError` surfaces only inside the per-request
mapping call `latlon_to_pixel`. -/
theorem mapper_degenerate_frame_raises_per_request :
    latlon_to_pixel ⟨100, 100, degenerateCorners⟩ 0 0 =
      Except.error PyErr.zeroDivisionError := by
  unfold latlon_to_pixel
  rw [if_pos]
  norm_num [lonMaxOf, lonMinOf, min4, max4, min_def, max_def, degenerateCorners]

/-- Claim C9 amended: the frame is not configurable at all — the corner dict is
hard-coded in the view with strictly positive latitude and longitude spans —
so with the shipped configuration the per-request mapping never divides by
zero and `identify_location` can never surface a `ZeroDivisionError`;
but this safety comes from the constant values, not from any load-time
validation (see the counterexample). -/
theorem hardcoded_frame_never_divides_by_zero (mapW mapH : ℕ) (lat lon : ℚ)
    (req : ReqData) (gemini : GeminiResult) (dets : List RawBox) (v1 v2 : ℚ) :
    lonMinOf hardcodedCorners < lonMaxOf hardcodedCorners ∧
    latMinOf hardcodedCorners < latMaxOf hardcodedCorners ∧
    latlon_to_pixel ⟨mapW, mapH, hardcodedCorners⟩ lat lon =
      Except.ok (truncQ (pixelX ⟨mapW, mapH, hardcodedCorners⟩ lon),
                 truncQ (pixelY ⟨mapW, mapH, hardcodedCorners⟩ lat)) ∧
    identify_location mapW mapH req gemini dets v1 v2 ≠
      Except.error PyErr.zeroDivisionError :=
  ⟨hardcoded_lon_span, hardcoded_lat_span, hard_latlon_ok mapW mapH lat lon,
   identify_core_no_zero_div hardcodedCorners hardcoded_lon_span hardcoded_lat_span
     mapW mapH req gemini dets v1 v2⟩

def cornersB : Corners := ⟨(1, 1), (1, 0), (0, 0), (0, 1)⟩

theorem markerA_lon_span : lonMinOf markerA.corners < lonMaxOf markerA.corners := by
  norm_num [markerA, cornersA, lonMinOf, lonMaxOf, min4, max4, min_def, max_def]

theorem markerA_lat_span : latMinOf markerA.corners < latMaxOf markerA.corners := by
  norm_num [markerA, cornersA, latMinOf, latMaxOf, min4, max4, min_def, max_def]

theorem cornersB_perm : cornersMS cornersB = cornersMS markerA.corners := by
  show cornersMS cornersB = cornersMS cornersA
  simp only [cornersMS, cornersB, cornersA, Multiset.insert_eq_cons]
  exact Multiset.cons_swap _ _ _

/-- Claim C2: for a frame with non-degenerate spans the mapper computes
`lat_min`, `lat_max`, `lon_min`, `lon_max` as min/max over the four corner
values — so the result is invariant under relabeling the corner slots —
and returns the `int()` truncation (toward zero) of
`(lon - lon_min)/(lon_max - lon_min) * width` and
`(lat_max - lat)/(lat_max - lat_min) * height`, with no clamping. -/
theorem mapper_formula_and_corner_relabeling (m : MapMarker) (c1 : Corners)
    (hperm : cornersMS c1 = cornersMS m.corners)
    (hlon : lonMinOf m.corners < lonMaxOf m.corners)
    (hlat : latMinOf m.corners < latMaxOf m.corners) (lat lon : ℚ) :
    latlon_to_pixel m lat lon =
      Except.ok
        (truncQ ((lon - lonMinOf m.corners) /
          (lonMaxOf m.corners - lonMinOf m.corners) * m.width),
         truncQ ((latMaxOf m.corners - lat) /
          (latMaxOf m.corners - latMinOf m.corners) * m.height)) ∧
    latlon_to_pixel ⟨m.width, m.height, c1⟩ lat lon = latlon_to_pixel m lat lon := by
  obtain ⟨e1, e2, e3, e4⟩ := bounds_relabel_invariant m.corners c1 hperm
  refine ⟨latlon_to_pixel_ok m hlon hlat lat lon, ?_⟩
  unfold latlon_to_pixel pixelX pixelY
  simp only [e1, e2, e3, e4]

/-- Claim C2 witness: the unit frame `markerA` at `(1/2, 1/2)`, with `cornersB`
the same four corners with the `top_left`/`top_right` slots swapped. -/
theorem mapper_formula_witness :
    latlon_to_pixel markerA (1/2) (1/2) =
      Except.ok
        (truncQ ((1/2 - lonMinOf markerA.corners) /
          (lonMaxOf markerA.corners - lonMinOf markerA.corners) * markerA.width),
         truncQ ((latMaxOf markerA.corners - 1/2) /
          (latMaxOf markerA.corners - latMinOf markerA.corners) * markerA.height)) ∧
    latlon_to_pixel ⟨markerA.width, markerA.height, cornersB⟩ (1/2) (1/2) =
      latlon_to_pixel markerA (1/2) (1/2) :=
  mapper_formula_and_corner_relabeling markerA cornersB cornersB_perm
    markerA_lon_span markerA_lat_span (1/2) (1/2)

/-- Claim C7 counterexample: strict monotonicity fails after `int()` truncation:
on the unit frame scaled to 100 pixels, longitudes `0` and `1/1000` map to
the same x pixel, and latitudes `999/1000` and `1` map to the same y pixel. -/
theorem mapper_strict_monotonicity_fails :
    (0 : ℚ) < 1/1000 ∧
    latlon_to_pixel markerA (1/2) (1/1000) = latlon_to_pixel markerA (1/2) 0 ∧
    (999/1000 : ℚ) < 1 ∧
    latlon_to_pixel markerA (999/1000) (1/2) = latlon_to_pixel markerA 1 (1/2) := by
  have h1 := latlon_to_pixel_ok markerA markerA_lon_span markerA_lat_span
  refine ⟨by norm_num, ?_, by norm_num, ?_⟩
  · rw [h1 (1/2) (1/1000), h1 (1/2) 0]
    have e1 : pixelX markerA (1/1000) = 1/10 := by
      norm_num [pixelX, markerA, cornersA, lonMinOf, lonMaxOf, min4, max4,
        min_def, max_def]
    have e2 : pixelX markerA 0 = 0 := by
      norm_num [pixelX, markerA, cornersA, lonMinOf, lonMaxOf, min4, max4,
        min_def, max_def]
    rw [e1, e2, truncQ_zero, truncQ_eval (1/10) 0 (by norm_num) (by norm_num)
      (by norm_num)]
  · rw [h1 (999/1000) (1/2), h1 1 (1/2)]
    have e1 : pixelY markerA (999/1000) = 1/10 := by
      norm_num [pixelY, markerA, cornersA, latMinOf, latMaxOf, min4, max4,
        min_def, max_def]
    have e2 : pixelY markerA 1 = 0 := by
      norm_num [pixelY, markerA, cornersA, latMinOf, latMaxOf, min4, max4,
        min_def, max_def]
    rw [e1, e2, truncQ_zero, truncQ_eval (1/10) 0 (by norm_num) (by norm_num)
      (by norm_num)]

/-- Claim C7 amended: the mapper is strictly monotone in the real-valued
coordinates (`pixelX` increasing in longitude, `pixelY` decreasing in
latitude), and therefore weakly monotone after `int()` truncation: at a
fixed latitude a greater longitude yields a greater-or-equal x (with equal
y), and at a fixed longitude a greater latitude yields a smaller-or-equal y
(with equal x).  Strict monotonicity of the integer pixel coordinates fails
(see the counterexample). -/
theorem mapper_weak_monotonicity (m : MapMarker)
    (hlon : lonMinOf m.corners < lonMaxOf m.corners)
    (hlat : latMinOf m.corners < latMaxOf m.corners)
    (hW : 0 < m.width) (hH : 0 < m.height)
    (lat lon lon1 lon2 lat1 lat2 : ℚ) (hLon : lon1 < lon2) (hLat : lat1 < lat2) :
    pixelX m lon1 < pixelX m lon2 ∧
    pixelY m lat2 < pixelY m lat1 ∧
    (∃ x1 y0 x2, latlon_to_pixel m lat lon1 = Except.ok (x1, y0) ∧
      latlon_to_pixel m lat lon2 = Except.ok (x2, y0) ∧ x1 ≤ x2) ∧
    (∃ x0 y1 y2, latlon_to_pixel m lat1 lon = Except.ok (x0, y1) ∧
      latlon_to_pixel m lat2 lon = Except.ok (x0, y2) ∧ y2 ≤ y1) := by
  have hΔlon : (0 : ℚ) < lonMaxOf m.corners - lonMinOf m.corners := sub_pos.2 hlon
  have hΔlat : (0 : ℚ) < latMaxOf m.corners - latMinOf m.corners := sub_pos.2 hlat
  have hWQ : (0 : ℚ) < (m.width : ℚ) := by exact_mod_cast hW
  have hHQ : (0 : ℚ) < (m.height : ℚ) := by exact_mod_cast hH
  have hx : pixelX m lon1 < pixelX m lon2 := by
    unfold pixelX
    gcongr
  have hy : pixelY m lat2 < pixelY m lat1 := by
    unfold pixelY
    gcongr
  refine ⟨hx, hy, ?_, ?_⟩
  · exact ⟨truncQ (pixelX m lon1), truncQ (pixelY m lat), truncQ (pixelX m lon2),
      latlon_to_pixel_ok m hlon hlat lat lon1,
      latlon_to_pixel_ok m hlon hlat lat lon2,
      truncQ_mono (le_of_lt hx)⟩
  · exact ⟨truncQ (pixelX m lon), truncQ (pixelY m lat1), truncQ (pixelY m lat2),
      latlon_to_pixel_ok m hlon hlat lat1 lon,
      latlon_to_pixel_ok m hlon hlat lat2 lon,
      truncQ_mono (le_of_lt hy)⟩

/-- Claim C7 witness: the amended monotonicity on the unit frame `markerA`. -/
theorem mapper_weak_monotonicity_witness :
    pixelX markerA (1/4) < pixelX markerA (3/4) ∧
    pixelY markerA (3/4) < pixelY markerA (1/4) ∧
    (∃ x1 y0 x2, latlon_to_pixel markerA (1/2) (1/4) = Except.ok (x1, y0) ∧
      latlon_to_pixel markerA (1/2) (3/4) = Except.ok (x2, y0) ∧ x1 ≤ x2) ∧
    (∃ x0 y1 y2, latlon_to_pixel markerA (1/4) (1/2) = Except.ok (x0, y1) ∧
      latlon_to_pixel markerA (3/4) (1/2) = Except.ok (x0, y2) ∧ y2 ≤ y1) :=
  mapper_weak_monotonicity markerA markerA_lon_span markerA_lat_span
    (by norm_num [markerA]) (by norm_num [markerA]) (1/2) (1/2) (1/4) (3/4)
    (1/4) (3/4) (by norm_num) (by norm_num)

/-- Claim C8: on a non-degenerate frame the corner `(lat_min, lon_min)` maps
exactly to the pixel `(0, height)` and `(lat_max, lon_max)` maps exactly to
`(width, 0)` (exact equality, hence within the 1-pixel truncation slack the
spec allows). -/
theorem mapper_extreme_corners (m : MapMarker)
    (hlon : lonMinOf m.corners < lonMaxOf m.corners)
    (hlat : latMinOf m.corners < latMaxOf m.corners) :
    latlon_to_pixel m (latMinOf m.corners) (lonMinOf m.corners) =
      Except.ok (0, (m.height : ℤ)) ∧
    latlon_to_pixel m (latMaxOf m.corners) (lonMaxOf m.corners) =
      Except.ok ((m.width : ℤ), 0) := by
  have hΔlon : lonMaxOf m.corners - lonMinOf m.corners ≠ 0 :=
    sub_ne_zero_of_ne (ne_of_gt hlon)
  have hΔlat : latMaxOf m.corners - latMinOf m.corners ≠ 0 :=
    sub_ne_zero_of_ne (ne_of_gt hlat)
  constructor
  · rw [latlon_to_pixel_ok m hlon hlat]
    have hxv : pixelX m (lonMinOf m.corners) = 0 := by
      unfold pixelX
      rw [sub_self, zero_div, zero_mul]
    have hyv : pixelY m (latMinOf m.corners) = (m.height : ℚ) := by
      unfold pixelY
      rw [div_self hΔlat, one_mul]
    rw [hxv, hyv, truncQ_zero, truncQ_natCast]
  · rw [latlon_to_pixel_ok m hlon hlat]
    have hxv : pixelX m (lonMaxOf m.corners) = (m.width : ℚ) := by
      unfold pixelX
      rw [div_self hΔlon, one_mul]
    have hyv : pixelY m (latMaxOf m.corners) = 0 := by
      unfold pixelY
      rw [sub_self, zero_div, zero_mul]
    rw [hxv, hyv, truncQ_zero, truncQ_natCast]

/-- Claim C8 witness: the unit frame `markerA` (100 by 100 pixels). -/
theorem mapper_extreme_corners_witness :
    latlon_to_pixel markerA (latMinOf markerA.corners) (lonMinOf markerA.corners) =
      Except.ok (0, (markerA.height : ℤ)) ∧
    latlon_to_pixel markerA (latMaxOf markerA.corners) (lonMaxOf markerA.corners) =
      Except.ok ((markerA.width : ℤ), 0) :=
  mapper_extreme_corners markerA markerA_lon_span markerA_lat_span

/-- Claim C3: the renderer converts the compass bearing to an image-space angle
by `angle = radians(bearing - 90)` and offsets the arrowhead tip by
`0.3 * size` along it, so with bearing 0 the tip lies strictly above the
anchor in image space (smaller y) and with bearing 180 strictly below
(greater y), for every anchor and positive size. -/
theorem renderer_bearing_up_down (x y size : ℝ) (hs : 0 < size) :
    (arrowTip x y 0 size).2 < y ∧ y < (arrowTip x y 180 size).2 := by
  have h0 : arrowAngle 0 = -(Real.pi / 2) := by
    unfold arrowAngle radiansOf
    ring
  have h180 : arrowAngle 180 = Real.pi / 2 := by
    unfold arrowAngle radiansOf
    ring
  constructor
  · show y + size * 0.3 * Real.sin (arrowAngle 0) < y
    rw [h0, Real.sin_neg, Real.sin_pi_div_two]
    nlinarith
  · show y < y + size * 0.3 * Real.sin (arrowAngle 180)
    rw [h180, Real.sin_pi_div_two]
    nlinarith

/-- Claim C3 witness: anchor `(100, 100)`, size 50. -/
theorem renderer_bearing_witness :
    (0 : ℝ) < 50 ∧ (arrowTip 100 100 0 50).2 < 100 ∧
    100 < (arrowTip 100 100 180 50).2 :=
  ⟨by norm_num, (renderer_bearing_up_down 100 100 50 (by norm_num)).1,
   (renderer_bearing_up_down 100 100 50 (by norm_num)).2⟩

/-- Claim C4: over a non-empty candidate list of positive areas (detector boxes
have `x1 < x2`, `y1 < y2`), the loop keeps the first-seen box of maximal
`(x2-x1)*(y2-y1)` (strict `>` against the running maximum, so ties keep the
earlier box); and on the spec's example list the second box (area 2500) is
selected. -/
theorem selector_first_max_area :
    (∀ bs : List RawBox, bs ≠ [] → (∀ x ∈ bs, 0 < boxArea x) →
      ∃ pre b suf, bs = pre ++ b :: suf ∧
        select_box bs = some (truncBox b) ∧
        (∀ x ∈ bs, boxArea x ≤ boxArea b) ∧
        (∀ x ∈ pre, boxArea x < boxArea b)) ∧
    select_box exampleBoxes = some ⟨0, 0, 50, 50⟩ := by
  constructor
  · rintro (_ | ⟨b, rest⟩) hne hpos
    · exact absurd rfl hne
    · rw [select_box_cons_pos b rest (hpos b (List.mem_cons_self b rest))]
      rcases firstMaxAux_cases b rest with ⟨heq, hall⟩ |
        ⟨pre, d, suf, hsplit, heq, hlt, hall, hpre⟩
      · refine ⟨[], b, rest, rfl, by rw [heq], ?_, by intro x hx; cases hx⟩
        intro x hx
        rcases List.mem_cons.1 hx with rfl | hx
        · exact le_refl _
        · exact hall x hx
      · refine ⟨b :: pre, d, suf, by rw [hsplit, List.cons_append],
          by rw [heq], ?_, ?_⟩
        · intro x hx
          rcases List.mem_cons.1 hx with rfl | hx
          · exact le_of_lt hlt
          · exact hall x hx
        · intro x hx
          rcases List.mem_cons.1 hx with rfl | hx
          · exact hlt
          · exact hpre x hx
  · have hsel : select_box exampleBoxes =
        some (truncBox (firstMaxAux ⟨0, 0, 10, 10⟩ [⟨0, 0, 50, 50⟩, ⟨5, 5, 20, 20⟩])) :=
      select_box_cons_pos _ _ (by norm_num [boxArea])
    have hmax : firstMaxAux (⟨0, 0, 10, 10⟩ : RawBox) [⟨0, 0, 50, 50⟩, ⟨5, 5, 20, 20⟩] =
        ⟨0, 0, 50, 50⟩ := by
      norm_num [firstMaxAux, boxArea]
    rw [hsel, hmax]
    have h50 : truncQ (50 : ℚ) = 50 :=
      truncQ_eval 50 50 (by norm_num) (by norm_num) (by norm_num)
    simp [truncBox, truncQ_zero, h50]

/-- Claim C4 witness: the general selection property instantiated on the spec's
example list. -/
theorem selector_first_max_area_witness :
    ∃ pre b suf, exampleBoxes = pre ++ b :: suf ∧
      select_box exampleBoxes = some (truncBox b) ∧
      (∀ x ∈ exampleBoxes, boxArea x ≤ boxArea b) ∧
      (∀ x ∈ pre, boxArea x < boxArea b) :=
  selector_first_max_area.1 exampleBoxes (by simp [exampleBoxes])
    (by norm_num [exampleBoxes, boxArea])

/-- Claim C5: with the two generator draws `v1 ∈ [0, 0.2)` and `v2 ∈ [0.8, 1)` as
hypotheses, the fallback box `(int(w*v1), int(h*v1), int(w*v2), int(h*v2))`
on a 100 by 100 image satisfies `0 ≤ x1 < x2 ≤ 100` with `x2 - x1 ∈ [60, 100]`,
and the same for the y coordinates. -/
theorem selector_fallback_box_bounds (v1 v2 : ℚ) (h0 : 0 ≤ v1) (h1 : v1 < 1/5)
    (h2 : 4/5 ≤ v2) (h3 : v2 < 1) :
    0 ≤ (fallback_box 100 100 v1 v2).x1 ∧
    (fallback_box 100 100 v1 v2).x1 < (fallback_box 100 100 v1 v2).x2 ∧
    (fallback_box 100 100 v1 v2).x2 ≤ 100 ∧
    60 ≤ (fallback_box 100 100 v1 v2).x2 - (fallback_box 100 100 v1 v2).x1 ∧
    (fallback_box 100 100 v1 v2).x2 - (fallback_box 100 100 v1 v2).x1 ≤ 100 ∧
    0 ≤ (fallback_box 100 100 v1 v2).y1 ∧
    (fallback_box 100 100 v1 v2).y1 < (fallback_box 100 100 v1 v2).y2 ∧
    (fallback_box 100 100 v1 v2).y2 ≤ 100 ∧
    60 ≤ (fallback_box 100 100 v1 v2).y2 - (fallback_box 100 100 v1 v2).y1 ∧
    (fallback_box 100 100 v1 v2).y2 - (fallback_box 100 100 v1 v2).y1 ≤ 100 := by
  have ecast : (((100 : ℕ) : ℚ)) = (100 : ℚ) := by norm_num
  have b1 : (0 : ℚ) ≤ (100 : ℚ) * v1 := by linarith
  have b2 : (0 : ℚ) ≤ (100 : ℚ) * v2 := by linarith
  have hv1 : truncQ (((100 : ℕ) : ℚ) * v1) = ⌊(100 : ℚ) * v1⌋ := by
    rw [ecast]
    exact truncQ_of_nonneg b1
  have hv2 : truncQ (((100 : ℕ) : ℚ) * v2) = ⌊(100 : ℚ) * v2⌋ := by
    rw [ecast]
    exact truncQ_of_nonneg b2
  have l1 : (0 : ℤ) ≤ ⌊(100 : ℚ) * v1⌋ := Int.floor_nonneg.2 b1
  have u1 : ⌊(100 : ℚ) * v1⌋ < 20 := Int.floor_lt.2 (by push_cast; linarith)
  have l2 : (80 : ℤ) ≤ ⌊(100 : ℚ) * v2⌋ := Int.le_floor.2 (by push_cast; linarith)
  have u2 : ⌊(100 : ℚ) * v2⌋ < 100 := Int.floor_lt.2 (by push_cast; linarith)
  simp only [fallback_box, hv1, hv2]
  refine ⟨?_, ?_, ?_, ?_, ?_, ?_, ?_, ?_, ?_, ?_⟩ <;> omega

/-- Claim C5 witness: draws `v1 = 1/10`, `v2 = 9/10`. -/
theorem selector_fallback_box_witness :
    0 ≤ (fallback_box 100 100 (1/10) (9/10)).x1 ∧
    (fallback_box 100 100 (1/10) (9/10)).x1 < (fallback_box 100 100 (1/10) (9/10)).x2 ∧
    (fallback_box 100 100 (1/10) (9/10)).x2 ≤ 100 ∧
    60 ≤ (fallback_box 100 100 (1/10) (9/10)).x2 - (fallback_box 100 100 (1/10) (9/10)).x1 ∧
    (fallback_box 100 100 (1/10) (9/10)).x2 - (fallback_box 100 100 (1/10) (9/10)).x1 ≤ 100 ∧
    0 ≤ (fallback_box 100 100 (1/10) (9/10)).y1 ∧
    (fallback_box 100 100 (1/10) (9/10)).y1 < (fallback_box 100 100 (1/10) (9/10)).y2 ∧
    (fallback_box 100 100 (1/10) (9/10)).y2 ≤ 100 ∧
    60 ≤ (fallback_box 100 100 (1/10) (9/10)).y2 - (fallback_box 100 100 (1/10) (9/10)).y1 ∧
    (fallback_box 100 100 (1/10) (9/10)).y2 - (fallback_box 100 100 (1/10) (9/10)).y1 ≤ 100 :=
  selector_fallback_box_bounds (1/10) (9/10) (by norm_num) (by norm_num)
    (by norm_num) (by norm_num)

/-- Claim C10: `identify_location` rotates the submitted photo a quarter turn
clockwise with the canvas expanded (`img.rotate(-90, expand=True)`) before
box selection and annotation, so the returned labeled image is the
annotation of the rotated photo: the annotated canvas swaps width and
height, `rotateCW` is transpose followed by a horizontal flip (the
clockwise quarter turn), and rotation is not the identity (so the result is
not an annotation of the photo in its original orientation). -/
theorem pipeline_rotates_photo_before_labeling :
    (∀ (mapW mapH : ℕ) (d lat lon : ℚ) (img : Img) (answer lbl : String)
        (dets : List RawBox) (v1 v2 : ℚ),
        extract_between_markers answer = some lbl →
        identify_location mapW mapH ⟨some d, some ⟨some lat, some lon⟩, some img⟩
            (GeminiResult.ok answer) dets v1 v2 =
          Except.ok (HttpResponse.resp200 (some lbl)
            (composeOverlay (rotateCW img)
              (chooseBox (rotateCW img) dets v1 v2) lbl))) ∧
    (∀ img : Img, (rotateCW img).width = img.height ∧
      (rotateCW img).height = img.width ∧
      rotateCW img = flipH (transposeImg img) ∧
      ∀ x y : ℕ, (rotateCW img).pix x y = img.pix y (img.height - 1 - x)) ∧
    rotateCW imgTall ≠ imgTall := by
  refine ⟨?_, ?_, ?_⟩
  · intro mapW mapH d lat lon img answer lbl dets v1 v2 hx
    rw [identify_location_full, hx, annotate_building_some]
  · intro img
    exact ⟨rfl, rfl, rfl, fun x y => rfl⟩
  · intro h
    have hw := congrArg Img.width h
    simp [rotateCW, imgTall] at hw

/-- Claim C10 witness: a concrete full request with a parsable answer; the
response's labeled image is the overlay composed on the rotated photo. -/
theorem pipeline_rotation_witness :
    identify_location 200 100 ⟨some 0, some ⟨some 33, some (-96)⟩, some imgTest⟩
      (GeminiResult.ok "/*** Founders Hall ***/") [] (1/10) (9/10) =
      Except.ok (HttpResponse.resp200 (some "Founders Hall")
        (composeOverlay (rotateCW imgTest)
          (chooseBox (rotateCW imgTest) [] (1/10) (9/10)) "Founders Hall")) :=
  pipeline_rotates_photo_before_labeling.1 200 100 0 33 (-96) imgTest
    "/*** Founders Hall ***/" "Founders Hall" [] (1/10) (9/10) (by rfl)

/-- Claim C9 witness: the amended statement at a concrete request. -/
theorem hardcoded_frame_witness :
    lonMinOf hardcodedCorners < lonMaxOf hardcodedCorners ∧
    latMinOf hardcodedCorners < latMaxOf hardcodedCorners ∧
    latlon_to_pixel ⟨200, 100, hardcodedCorners⟩ 33 (-96) =
      Except.ok (truncQ (pixelX ⟨200, 100, hardcodedCorners⟩ (-96)),
                 truncQ (pixelY ⟨200, 100, hardcodedCorners⟩ 33)) ∧
    identify_location 200 100 ⟨some 0, some ⟨some 33, some (-96)⟩, some imgTest⟩
      (GeminiResult.ok "/*** A ***/") [] (1/10) (9/10) ≠
      Except.error PyErr.zeroDivisionError :=
  hardcoded_frame_never_divides_by_zero 200 100 33 (-96)
    ⟨some 0, some ⟨some 33, some (-96)⟩, some imgTest⟩
    (GeminiResult.ok "/*** A ***/") [] (1/10) (9/10)
